import Mathlib

/-!
Shallow embedding of `src/release.py` from the jupyter-book/myst-plugins
repository.

The script is a linear pipeline over external effects (git queries, npm,
node, the gh release CLI, and filesystem probes).  We model the external
world as an `Env` of oracles keyed by plugin name, and every function
returns the list of effects it performs (subprocess executions and printed
log lines) together with its Python return value.  Python exceptions that
can escape a function are modelled with `Except PyError`; exceptions that
the source catches locally are folded into the oracles (a `none` /
failure answer stands for a raised-and-caught `subprocess.CalledProcessError`).

Log lines reproduce the `log` helper of the source: level `error` prefixes
the message with a cross-mark emoji, `warning` with a warning emoji and
`success` with a check-mark emoji.  Where the source interpolates a Python
exception object into a message we abbreviate that part as `<error>` /
`<stderr>`; no claim depends on the exception text.
-/

namespace MystPlugins

/-- Python exceptions that can escape the modelled functions:
`FileNotFoundError` from `Path.iterdir` on a missing directory, and
`IndexError` from `asset_paths[0]` on an empty list. -/
inductive PyError where
  | fileNotFound (path : String)
  | indexError
  deriving Repr, DecidableEq

/-- The level argument of the `log` helper; `info` also covers the direct
`print` calls.  Level `error` renders with a cross-mark prefix, `warning`
with a warning sign, `success` with a check mark. -/
inductive LogLevel where
  | info
  | success
  | error
  | warning
  deriving Repr, DecidableEq

/-- The observable effects of the script: printed lines (through the `log`
helper or `print`) and subprocess executions.  `execGitTagList name` is
`git tag -l name`; `execGitLogDate` is `git log -1 --format=%ai name`;
`execGitDiff tag dir` is `git diff --quiet tag HEAD -- dir`;
`execNpmInstall` / `execNodeBuild` run in the plugin directory;
`execGh cmd` runs the gh release command `cmd`; `globMjs dir` is the
filesystem glob `dir/*.mjs` used for asset collection. -/
inductive Event where
  | logLine (level : LogLevel) (msg : String)
  | execGitTagList (name : String)
  | execGitLogDate (name : String)
  | execGitDiff (tag : String) (dir : String)
  | execNpmInstall (dir : String)
  | execNodeBuild (dir : String) (file : String)
  | execGh (cmd : List String)
  | globMjs (dir : String)
  deriving Repr, DecidableEq

/-- The external world, keyed by plugin name.  Subprocess oracles return
`none` for a `subprocess.CalledProcessError` (with `check=True`) and
`some stdout` on success; `gitDiffRet` is the raw returncode of the
un-checked `git diff --quiet` call.  `files name` lists the file paths
inside `plugins/name`, relative to that directory (a path containing a
slash lies in a subdirectory such as `dist/`). -/
structure Env where
  pluginsDirExists : Bool
  pluginDirNames : List String
  dirExists : String → Bool
  gitTag : String → Option String
  gitLog : String → Option String
  gitDiffRet : String → Nat
  hasBuildJs : String → Bool
  hasBuildMjs : String → Bool
  hasNodeModules : String → Bool
  npmOk : String → Bool
  nodeOk : String → Bool
  distExists : String → Bool
  files : String → List String
  ghOk : Bool

/-- Character-list prefix test (used to model the Python `str` methods by
structural recursion, so that concrete traces evaluate). -/
def charsStartWith : List Char → List Char → Bool
  | [], _ => true
  | _ :: _, [] => false
  | p :: ps, c :: cs => p == c && charsStartWith ps cs

/-- Python `s.startswith(pat)`. -/
def strStartsWith (s pat : String) : Bool :=
  charsStartWith pat.toList s.toList

/-- Python `s.endswith(pat)` (via reversed character lists). -/
def strEndsWith (s pat : String) : Bool :=
  charsStartWith pat.toList.reverse s.toList.reverse

/-- Membership of a character in a string, modelling `"/" in str(path)`
style checks and `Path` component structure. -/
def strHasChar (s : String) (c : Char) : Bool :=
  s.toList.any (fun x => x == c)

/-- Drop the first `n` characters of a string. -/
def strDropChars (s : String) (n : Nat) : String :=
  String.mk (s.toList.drop n)

/-- Leading-whitespace removal on a character list. -/
def dropLeadingWs : List Char → List Char
  | [] => []
  | c :: cs => if c.isWhitespace then dropLeadingWs cs else c :: cs

/-- Python `s.strip()`: whitespace removed from both ends. -/
def pyStrip (s : String) : String :=
  String.mk ((dropLeadingWs (dropLeadingWs s.toList).reverse).reverse)

/-- The first whitespace-separated token of a stripped string, modelling
`s.strip().split()[0]` on the nonempty date output. -/
def firstToken (s : String) : String :=
  String.mk ((pyStrip s).toList.takeWhile (fun c => !(c.isWhitespace)))

/-- Insertion step for sorting directory names (`sorted` in the source). -/
def insertStr (x : String) : List String → List String
  | [] => [x]
  | y :: ys => if decide (x ≤ y) then x :: y :: ys else y :: insertStr x ys

/-- The `sorted(...)` applied to `plugins_dir.iterdir()` in the source. -/
def sortStrs (l : List String) : List String := l.foldr insertStr []

/-- Python `str.title()` restricted to ASCII letters: an alphabetic
character is uppercased when the previous character was not alphabetic and
lowercased otherwise; other characters pass through and reset the state. -/
def pyTitleChars : Bool → List Char → List Char
  | _, [] => []
  | prevCased, c :: cs =>
      if c.isAlpha then
        (if prevCased then c.toLower else c.toUpper) :: pyTitleChars true cs
      else
        c :: pyTitleChars false cs

/-- Python `s.title()` on a string. -/
def pyTitle (s : String) : String := String.mk (pyTitleChars false s.toList)

/-- Python `s.replace("-", " ")`: the pattern is a single character, so the
replacement is a character map. -/
def pyReplaceDash (s : String) : String :=
  String.mk (s.toList.map (fun c => if c = ('-') then (' ') else c))

/-- The release title of the source, `plugin_name.replace("-", " ").title()`. -/
def release_title (name : String) : String :=
  pyTitle (pyReplaceDash name)

/-- The canonical plugin URL built in `create_release`. -/
def readme_url (name : String) : String :=
  "https://github.com/jupyter-book/myst-plugins/tree/main/plugins/" ++ name

/-- The release notes built in `create_release`. -/
def release_notes (name : String) : String :=
  "See plugin documentation: " ++ readme_url name

/-- The argv list of the gh release command built in `create_release`. -/
def release_cmd (name : String) (asset_paths : List String) : List String :=
  ["gh", "release", "create", name,
   "--title", release_title name,
   "--notes", release_notes name] ++ asset_paths

/-- Basename of a path, modelling `Path.name`: the characters after the
last slash. -/
def baseName (p : String) : String :=
  String.mk (p.toList.foldl (fun acc c => if c = ('/') then [] else acc ++ [c]) [])

/-- The line printed by `create_release` in dry-run mode: it interpolates
only `asset_paths[0]`, the first collected asset path. -/
def dryRunCommandLine (name : String) (firstAsset : String) : String :=
  "  Command: gh release create " ++ name ++ " --title \"" ++ release_title name ++
  "\" --notes \"" ++ release_notes name ++ "\" " ++ firstAsset

/-- Substring search on character lists. -/
def charsContainsSub (pat : List Char) : List Char → Bool
  | [] => charsStartWith pat []
  | c :: cs => charsStartWith pat (c :: cs) || charsContainsSub pat cs

/-- Substring test, modelling Python `pat in s`. -/
def strContains (s pat : String) : Bool :=
  charsContainsSub pat.toList s.toList

/-- Embedding of `check_changes_since_release(plugin_name, plugin_dir)`.
Returns the performed effects and the `(has_changes, message)` pair.  A
failing `git tag -l` (oracle `none`) is caught and degraded to
`(True, "Could not check git history")` with a warning log. -/
def check_changes_since_release (env : Env) (name : String) :
    List Event × Bool × String :=
  let dir := "plugins/" ++ name
  match env.gitTag name with
  | none =>
      ([Event.execGitTagList name,
        Event.logLine LogLevel.warning ("Could not check git history: <error>")],
       (true, "Could not check git history"))
  | some out =>
      if pyStrip out = "" then
        ([Event.execGitTagList name], (true, "No previous release found"))
      else
        if env.gitDiffRet name = 0 then
          ([Event.execGitTagList name, Event.execGitDiff name dir],
           (false, "No changes since last release"))
        else
          ([Event.execGitTagList name, Event.execGitDiff name dir],
           (true, "Changes detected since last release"))

/-- Embedding of `build_plugin(plugin_dir, build_file)`.  When
`node_modules` is absent, `npm install` runs first; a failure of either
subprocess is caught, logged as an error, and reported as `false`. -/
def build_plugin (env : Env) (name : String) (build_file : String) :
    List Event × Bool :=
  let dir := "plugins/" ++ name
  let e0 := Event.logLine LogLevel.info ("  Building plugin with " ++ build_file ++ "...")
  if env.hasNodeModules name then
    if env.nodeOk name then
      ([e0, Event.execNodeBuild dir build_file, Event.logLine LogLevel.info ("  Build successful")], true)
    else
      ([e0, Event.execNodeBuild dir build_file, Event.logLine LogLevel.error ("Build failed: <error>")], false)
  else
    if env.npmOk name then
      if env.nodeOk name then
        ([e0, Event.execNpmInstall dir, Event.execNodeBuild dir build_file,
          Event.logLine LogLevel.info ("  Build successful")], true)
      else
        ([e0, Event.execNpmInstall dir, Event.execNodeBuild dir build_file,
          Event.logLine LogLevel.error ("Build failed: <error>")], false)
    else
      ([e0, Event.execNpmInstall dir, Event.logLine LogLevel.error ("Build failed: <error>")], false)

/-- The glob `dist_dir.glob("*.mjs")`: direct entries of `dist/` whose
name ends in `.mjs`, as paths relative to the plugin directory. -/
def globDistMjs (env : Env) (name : String) : List String :=
  (env.files name).filter (fun p =>
    strStartsWith p ("dist/") && !(strHasChar (strDropChars p 5) ('/')) &&
      strEndsWith p (".mjs"))

/-- The glob `plugin_dir.glob("*.mjs")`: direct entries of the plugin
directory whose name ends in `.mjs`. -/
def globTopMjs (env : Env) (name : String) : List String :=
  (env.files name).filter (fun p =>
    !(strHasChar p ('/')) && strEndsWith p (".mjs"))

/-- Embedding of `collect_release_assets(plugin_dir, built)`.  Returned
asset paths are relative to the plugin directory (so a built asset reads
`dist/x.mjs`); an empty glob result is logged as an error and yields `[]`. -/
def collect_release_assets (env : Env) (name : String) (built : Bool) :
    List Event × List String :=
  if built then
    if env.distExists name then
      if (globDistMjs env name).isEmpty then
        ([Event.globMjs ("plugins/" ++ name ++ "/dist"),
          Event.logLine LogLevel.error ("No .mjs files found in dist/")], [])
      else
        ([Event.globMjs ("plugins/" ++ name ++ "/dist")], globDistMjs env name)
    else
      ([Event.logLine LogLevel.error ("dist/ directory not found")], [])
  else
    if (globTopMjs env name).isEmpty then
      ([Event.globMjs ("plugins/" ++ name),
        Event.logLine LogLevel.error ("No .mjs files found in " ++ ("plugins/" ++ name))], [])
    else
      ([Event.globMjs ("plugins/" ++ name)], globTopMjs env name)

/-- Embedding of `create_release(plugin_name, release_assets, deploy)`.
`release_assets` are the cwd-relative asset paths (the source's
`asset.resolve().relative_to(Path.cwd())`, which on assets collected under
`plugins/` is path concatenation).  In deploy mode the gh command is
executed and a `CalledProcessError` is caught and reported as `false`;
in dry-run mode the command line interpolating `asset_paths[0]` is
printed, which raises `IndexError` when the list is empty. -/
def create_release (env : Env) (name : String) (release_assets : List String)
    (deploy : Bool) : List Event × Except PyError Bool :=
  let asset_paths := release_assets
  let cmd := release_cmd name asset_paths
  let showAssets :=
    Event.logLine LogLevel.info ("  Assets: " ++ String.intercalate (", ") (release_assets.map baseName))
  if deploy then
    if env.ghOk then
      ([showAssets, Event.logLine LogLevel.info ("  Creating release..."), Event.execGh cmd,
        Event.logLine LogLevel.success ("Release created!")], Except.ok true)
    else
      ([showAssets, Event.logLine LogLevel.info ("  Creating release..."), Event.execGh cmd,
        Event.logLine LogLevel.error ("Release failed: <stderr>")], Except.ok false)
  else
    match asset_paths with
    | [] => ([showAssets], Except.error PyError.indexError)
    | a0 :: _ =>
        ([showAssets, Event.logLine LogLevel.info (dryRunCommandLine name a0),
          Event.logLine LogLevel.info ("  (dry-run mode, use --deploy to execute)")], Except.ok true)

/-- The build-file selection of `process_plugin`: `build.js` when present,
else `build.mjs` when present, else none. -/
def buildFileOf (env : Env) (name : String) : Option String :=
  if env.hasBuildJs name then some ("build.js")
  else if env.hasBuildMjs name then some ("build.mjs")
  else none

/-- The tail of `process_plugin` after the build step: collect assets with
the given `built` flag, fail on an empty collection, otherwise create the
release from the cwd-relative asset paths. -/
def process_plugin_post (env : Env) (name : String) (deploy built : Bool) :
    List Event × Except PyError Bool :=
  let c := collect_release_assets env name built
  if c.2.isEmpty then (c.1, Except.ok false)
  else
    let full := c.2.map (fun p => "plugins/" ++ name ++ "/" ++ p)
    let r := create_release env name full deploy
    (c.1 ++ r.1, r.2)

/-- Embedding of `process_plugin(plugin_name, plugins_dir, deploy)`. -/
def process_plugin (env : Env) (name : String) (deploy : Bool) :
    List Event × Except PyError Bool :=
  let hdr := Event.logLine LogLevel.info ("\n" ++ name ++ ":")
  if env.dirExists name then
    let c := check_changes_since_release env name
    if c.2.1 then
      let ev2 := [Event.logLine LogLevel.info ("  " ++ c.2.2)]
      match buildFileOf env name with
      | some bf =>
          let b := build_plugin env name bf
          if b.2 then
            let r := process_plugin_post env name deploy true
            ([hdr] ++ c.1 ++ ev2 ++ b.1 ++ r.1, r.2)
          else
            ([hdr] ++ c.1 ++ ev2 ++ b.1, Except.ok false)
      | none =>
          let r := process_plugin_post env name deploy false
          ([hdr] ++ c.1 ++ ev2 ++ r.1, r.2)
    else
      ([hdr] ++ c.1 ++ [Event.logLine LogLevel.info ("  " ++ c.2.2 ++ ", skipping")], Except.ok true)
  else
    ([hdr, Event.logLine LogLevel.error ("  Plugin directory not found")], Except.ok false)

/-- One plugin's entry in `list_plugins`: the git tag query, optionally the
release-date query, and the printed status line.  A `CalledProcessError`
from either query is caught and reported as `(status unknown)`. -/
def padName (s : String) : String :=
  s ++ String.mk (List.replicate (30 - s.length) (' '))

/-- Status line events for one plugin in `list_plugins`. -/
def listOnePlugin (env : Env) (name : String) : List Event :=
  match env.gitTag name with
  | none =>
      [Event.execGitTagList name,
       Event.logLine LogLevel.info ("  - " ++ padName name ++ " (status unknown)")]
  | some out =>
      if pyStrip out = "" then
        [Event.execGitTagList name,
         Event.logLine LogLevel.info ("  - " ++ padName name ++ " (never released)")]
      else
        match env.gitLog name with
        | none =>
            [Event.execGitTagList name, Event.execGitLogDate name,
             Event.logLine LogLevel.info ("  - " ++ padName name ++ " (status unknown)")]
        | some d =>
            if pyStrip d = "" then
              [Event.execGitTagList name, Event.execGitLogDate name,
               Event.logLine LogLevel.info ("  - " ++ padName name ++ " (released)")]
            else
              [Event.execGitTagList name, Event.execGitLogDate name,
               Event.logLine LogLevel.info ("  - " ++ padName name ++ " (last released: " ++
                 firstToken d ++ ")")]

/-- Embedding of `list_plugins(plugins_dir)`: header, one status line per
sorted plugin directory, usage footer. -/
def list_plugins (env : Env) : List Event :=
  [Event.logLine LogLevel.info ("Available plugins:")] ++
  (((sortStrs env.pluginDirNames).map (listOnePlugin env)).flatten) ++
  [Event.logLine LogLevel.info ("\nUsage: python -m src.release <plugin-name> [--deploy]"),
   Event.logLine LogLevel.info ("       python -m src.release --all [--deploy]")]

/-- The `for plugin_name in targets` loop of `main`: processes the targets
in order, threading the trace and counting successes; an uncaught Python
exception from a plugin aborts the loop. -/
def runPlugins (env : Env) (deploy : Bool) : List String → List Event × Except PyError Nat
  | [] => ([], Except.ok 0)
  | t :: ts =>
      let p := process_plugin env t deploy
      match p.2 with
      | Except.error e => (p.1, Except.error e)
      | Except.ok b =>
          let r := runPlugins env deploy ts
          (p.1 ++ r.1,
           match r.2 with
           | Except.error e => Except.error e
           | Except.ok n => Except.ok ((if b then 1 else 0) + n))

/-- The `--deploy` flag parse of `main`. -/
def deployFlag (args : List String) : Bool := args.contains ("--deploy")

/-- The targeted plugins of `main`: all sorted plugin directories under
`--all`, otherwise the non-flag arguments. -/
def targetsOf (env : Env) (args : List String) : List String :=
  if args.contains ("--all") then sortStrs env.pluginDirNames
  else args.filter (fun a => !(strStartsWith a ("--")))

/-- The listing condition of `main`: no plugin names given and no
`--all` flag, i.e. `not plugin_names and not all_plugins`. -/
def listOnly (args : List String) : Bool :=
  (args.filter (fun a => !(strStartsWith a ("--")))).isEmpty &&
    !(args.contains ("--all"))

/-- Embedding of `main(args)`.  `plugins_dir.iterdir()` runs before any
branching and raises `FileNotFoundError` when the plugins root is missing;
otherwise the function either lists plugins (no targets requested) or
processes every target and returns exit code 0 exactly when every target
succeeded. -/
def main (env : Env) (args : List String) : List Event × Except PyError Nat :=
  if env.pluginsDirExists then
    if listOnly args then
      (list_plugins env, Except.ok 0)
    else
      let targets := targetsOf env args
      let r := runPlugins env (deployFlag args) targets
      match r.2 with
      | Except.error e => (r.1, Except.error e)
      | Except.ok n =>
          (r.1 ++ [Event.logLine LogLevel.info ("\nProcessed " ++ toString n ++ "/" ++
             toString targets.length ++ " plugin(s)")],
           Except.ok (if n = targets.length then 0 else 1))
  else
    ([], Except.error (PyError.fileNotFound ("plugins")))

/-- Event classifier: the gh release command execution. -/
def isGhExec : Event → Bool
  | Event.execGh _ => true
  | _ => false

/-- Event classifier: an asset-collection glob. -/
def isGlob : Event → Bool
  | Event.globMjs _ => true
  | _ => false

/-- Event classifier: a build-step subprocess (npm install or node). -/
def isBuildExec : Event → Bool
  | Event.execNpmInstall _ => true
  | Event.execNodeBuild _ _ => true
  | _ => false

/-- Event classifier: a printed line. -/
def isPrint : Event → Bool
  | Event.logLine _ _ => true
  | _ => false

/-- Event classifier: an error-level log line. -/
def isErrorLog : Event → Bool
  | Event.logLine LogLevel.error _ => true
  | _ => false

/-- Event classifier: a warning-level log line. -/
def isWarnLog : Event → Bool
  | Event.logLine LogLevel.warning _ => true
  | _ => false

/-- No gh release command is executed anywhere in the trace. -/
def noGh (evs : List Event) : Bool := evs.all (fun e => !(isGhExec e))

/-- The Python return value is an ordinary value, not a raised exception. -/
def exceptOk {α : Type} : Except PyError α → Bool
  | Except.ok _ => true
  | Except.error _ => false

/-- The per-plugin outcome counted as a success by the loop in `main`. -/
def okTrue : Except PyError Bool → Bool
  | Except.ok true => true
  | _ => false

/-- The build outcome of `process_plugin`: `none` when no build descriptor
exists, otherwise the result of `build_plugin` on the selected file. -/
def buildOutcome (env : Env) (name : String) : Option Bool :=
  (buildFileOf env name).map (fun bf => (build_plugin env name bf).2)

/-- The `built` flag that `process_plugin` passes to asset collection. -/
def builtFlag (env : Env) (name : String) : Bool :=
  match buildOutcome env name with
  | some true => true
  | _ => false

/-- A concrete base environment for witnesses: one never-released plugin
`bar-chart` with a top-level `index.mjs` and no build descriptor. -/
def envBase : Env where
  pluginsDirExists := true
  pluginDirNames := ["bar-chart", "foo-table"]
  dirExists := fun _ => true
  gitTag := fun _ => some ("")
  gitLog := fun _ => none
  gitDiffRet := fun _ => 1
  hasBuildJs := fun _ => false
  hasBuildMjs := fun _ => false
  hasNodeModules := fun _ => false
  npmOk := fun _ => true
  nodeOk := fun _ => true
  distExists := fun _ => true
  files := fun _ => ["index.mjs"]
  ghOk := true

/-- Environment whose plugins root directory is missing. -/
def envNoRoot : Env := { envBase with pluginsDirExists := false }

/-- Environment whose git tag query fails with `CalledProcessError`. -/
def envGitFail : Env := { envBase with gitTag := fun _ => none }

/-- Environment of a released, unchanged plugin: the tag exists and
`git diff --quiet` exits 0. -/
def envUnchanged : Env :=
  { envBase with gitTag := fun n => some (n), gitDiffRet := fun _ => 0 }

/-- Environment of a plugin with a `build.js` whose build fails at the
`npm install` step. -/
def envBuildFail : Env :=
  { envBase with hasBuildJs := fun _ => true, npmOk := fun _ => false }

/-- Environment of a plugin with no distributable files at all. -/
def envNoAssets : Env := { envBase with files := fun _ => [] }

/-- With a nonempty asset list, `create_release` returns normally in both
modes: the `IndexError` of the dry-run branch needs an empty list. -/
theorem create_release_exceptOk (env : Env) (name : String) (assets : List String)
    (deploy : Bool) (h : assets ≠ []) :
    exceptOk (create_release env name assets deploy).2 = true := by
  cases assets with
  | nil => exact absurd rfl h
  | cons a as =>
      cases deploy <;> unfold create_release <;> cases hg : env.ghOk <;>
        simp [exceptOk, hg]

/-- The post-build tail of `process_plugin` returns normally: an empty
collection short-circuits to `False` before `create_release` runs. -/
theorem process_plugin_post_exceptOk (env : Env) (name : String)
    (deploy built : Bool) :
    exceptOk (process_plugin_post env name deploy built).2 = true := by
  unfold process_plugin_post
  cases hc : (collect_release_assets env name built).2 with
  | nil => simp [hc, exceptOk]
  | cons a as =>
      have hne : (a :: as).map (fun p => "plugins/" ++ name ++ "/" ++ p) ≠ [] := by
        simp
      have := create_release_exceptOk env name
        ((a :: as).map (fun p => "plugins/" ++ name ++ "/" ++ p)) deploy hne
      simp only [hc]
      simpa using this

/-- `process_plugin` returns normally on every input: every failure path
yields `False` rather than raising. -/
theorem process_plugin_exceptOk (env : Env) (name : String) (deploy : Bool) :
    exceptOk (process_plugin env name deploy).2 = true := by
  unfold process_plugin
  cases hd : env.dirExists name
  · simp [hd, exceptOk]
  · cases hc : (check_changes_since_release env name).2.1
    · simp [hd, hc, exceptOk]
    · cases hbf : buildFileOf env name with
      | none => simp [hd, hc, hbf, process_plugin_post_exceptOk]
      | some bf =>
          cases hb : (build_plugin env name bf).2
          · simp [hd, hc, hbf, hb, exceptOk]
          · simp [hd, hc, hbf, hb, process_plugin_post_exceptOk]

/-- The per-plugin loop of `main` returns the number of successful plugins
and never raises. -/
theorem runPlugins_spec (env : Env) (deploy : Bool) (ts : List String) :
    (runPlugins env deploy ts).2 =
      Except.ok (ts.countP (fun n => okTrue (process_plugin env n deploy).2)) := by
  induction ts with
  | nil => rfl
  | cons t ts ih =>
      unfold runPlugins
      cases hp : (process_plugin env t deploy).2 with
      | error e =>
          have := process_plugin_exceptOk env t deploy
          rw [hp] at this
          exact absurd this (by simp [exceptOk])
      | ok b =>
          simp only [hp, ih, List.countP_cons]
          cases b <;> simp [okTrue, hp, Nat.add_comm]

/-- `okTrue` recognises exactly the successful outcome. -/
theorem okTrue_eq_true_iff (x : Except PyError Bool) :
    okTrue x = true ↔ x = Except.ok true := by
  cases x with
  | error e => simp [okTrue]
  | ok b => cases b <;> simp [okTrue]

/-- The trace of `check_changes_since_release` holds only git executions
and log lines: no glob, no gh command, no build subprocess. -/
theorem check_events_class (env : Env) (name : String) :
    ((check_changes_since_release env name).1).all
      (fun e => !(isGlob e) && !(isGhExec e) && !(isBuildExec e)) = true := by
  unfold check_changes_since_release
  cases env.gitTag name with
  | none => rfl
  | some out =>
      by_cases h : pyStrip out = ""
      · simp only [if_pos h]; rfl
      · simp only [if_neg h]
        by_cases h2 : env.gitDiffRet name = 0
        · simp only [if_pos h2]; rfl
        · simp only [if_neg h2]; rfl

/-- The trace of `build_plugin` holds only build subprocesses and log
lines: no glob and no gh command. -/
theorem build_events_class (env : Env) (name : String) (bf : String) :
    ((build_plugin env name bf).1).all
      (fun e => !(isGlob e) && !(isGhExec e)) = true := by
  unfold build_plugin
  cases env.hasNodeModules name <;> cases env.npmOk name <;>
    cases env.nodeOk name <;> rfl

/-- Asset collection never executes the gh command. -/
theorem collect_no_gh (env : Env) (name : String) (built : Bool) :
    noGh (collect_release_assets env name built).1 = true := by
  unfold collect_release_assets noGh
  cases built
  · by_cases h : (globTopMjs env name).isEmpty
    · simp only [if_pos h]; rfl
    · simp only [if_neg h]; rfl
  · cases env.distExists name
    · rfl
    · by_cases h : (globDistMjs env name).isEmpty
      · simp only [if_pos h]; rfl
      · simp only [if_neg h]; rfl

/-- An empty asset collection always logs an error-level line. -/
theorem collect_empty_has_error (env : Env) (name : String) (built : Bool)
    (h : (collect_release_assets env name built).2 = []) :
    ((collect_release_assets env name built).1).any isErrorLog = true := by
  unfold collect_release_assets at h ⊢
  cases built
  · by_cases he : globTopMjs env name = []
    · simp [he, isErrorLog]
    · simp [he] at h
  · cases hde : env.distExists name
    · simp [hde, isErrorLog]
    · by_cases he : globDistMjs env name = []
      · simp [hde, he, isErrorLog]
      · simp [hde, he] at h

/-- Weakening of a `List.all` fact pointwise. -/
theorem all_weaken {α : Type} {f g : α → Bool} {l : List α}
    (h : l.all f = true) (imp : ∀ e, f e = true → g e = true) : l.all g = true := by
  rw [List.all_eq_true] at h ⊢
  exact fun e he => imp e (h e he)

/-- The post-build tail short-circuits on an empty collection. -/
theorem post_empty (env : Env) (name : String) (deploy built : Bool)
    (h : (collect_release_assets env name built).2 = []) :
    process_plugin_post env name deploy built =
      ((collect_release_assets env name built).1, Except.ok false) := by
  unfold process_plugin_post
  simp [h]

/-- The value of `main` in the processing branch: the exit code compares
the success count against the number of targets. -/
theorem main_processing (env : Env) (args : List String)
    (hroot : env.pluginsDirExists = true)
    (hsel : listOnly args = false) :
    (main env args).2 = Except.ok
      (if (targetsOf env args).countP
            (fun n => okTrue (process_plugin env n (deployFlag args)).2) =
          (targetsOf env args).length
       then 0 else 1) := by
  unfold main
  simp [hroot, hsel, runPlugins_spec]

/-- C1: for every plugin name and non-empty asset list, `create_release`
with `deploy = False` never executes the gh release command as a
subprocess; its trace consists of printed lines only and it returns
`True`. -/
theorem C1_dry_run_never_executes_gh (env : Env) (name : String)
    (assets : List String) (h : assets ≠ []) :
    (create_release env name assets false).2 = Except.ok true ∧
    noGh (create_release env name assets false).1 = true ∧
    ((create_release env name assets false).1).all isPrint = true := by
  cases assets with
  | nil => exact absurd rfl h
  | cons a as => exact ⟨rfl, rfl, rfl⟩

/-- Witness for C1 at a concrete plugin and one-element asset list. -/
theorem C1_witness :
    ((["plugins/demo/index.mjs"] : List String) ≠ []) ∧
    ((create_release envBase ("demo") ["plugins/demo/index.mjs"] false).2 =
        Except.ok true ∧
      noGh (create_release envBase ("demo") ["plugins/demo/index.mjs"] false).1 = true ∧
      ((create_release envBase ("demo") ["plugins/demo/index.mjs"] false).1).all
        isPrint = true) :=
  ⟨by decide,
   C1_dry_run_never_executes_gh envBase ("demo") ["plugins/demo/index.mjs"] (by decide)⟩

/-- C2 counterexample: when the `plugins` root directory is missing,
`plugins_dir.iterdir()` in `main` raises `FileNotFoundError` to the top
level, so not every filesystem access is guarded. -/
theorem C2_counterexample :
    (main envNoRoot ["bar-chart"]).2 =
      Except.error (PyError.fileNotFound ("plugins")) := rfl

/-- C2 (amended): provided the plugins root directory exists, no exception
propagates out of `main`: every modelled external-call failure is caught
and converted to a per-plugin outcome, and `main` returns an exit code. -/
theorem C2_no_toplevel_exception (env : Env) (args : List String)
    (hroot : env.pluginsDirExists = true) :
    exceptOk (main env args).2 = true := by
  cases hsel : listOnly args
  · rw [main_processing env args hroot hsel]
    rfl
  · unfold main
    simp [hroot, hsel, exceptOk]

/-- Witness for C2 (amended) at a concrete environment and argument list. -/
theorem C2_witness :
    envBase.pluginsDirExists = true ∧
    exceptOk (main envBase ["bar-chart"]).2 = true :=
  ⟨rfl, C2_no_toplevel_exception envBase ["bar-chart"] rfl⟩

/-- C3: change detection defaults to needs-release both when no tag with
the plugin's name exists (empty `git tag -l` output) and when the git
query itself fails, in the latter case with a warning log; a plugin is
never silently skipped because of tooling failure. -/
theorem C3_no_tag_or_git_failure_needs_release (env : Env) (name : String) :
    (env.gitTag name = none →
      (check_changes_since_release env name).2 =
        (true, "Could not check git history") ∧
      ((check_changes_since_release env name).1).any isWarnLog = true) ∧
    (∀ s, env.gitTag name = some s → pyStrip s = "" →
      (check_changes_since_release env name).2 =
        (true, "No previous release found")) := by
  constructor
  · intro h
    unfold check_changes_since_release
    rw [h]
    exact ⟨rfl, rfl⟩
  · intro s hs ht
    unfold check_changes_since_release
    rw [hs]
    simp [ht]

/-- Witness for C3: a failing git query and an absent tag, both at
concrete environments. -/
theorem C3_witness :
    (envGitFail.gitTag ("demo") = none ∧
      ((check_changes_since_release envGitFail ("demo")).2 =
          (true, "Could not check git history") ∧
        ((check_changes_since_release envGitFail ("demo")).1).any isWarnLog = true)) ∧
    (envBase.gitTag ("demo") = some ("") ∧ pyStrip ("") = "" ∧
      (check_changes_since_release envBase ("demo")).2 =
        (true, "No previous release found")) :=
  ⟨⟨rfl, (C3_no_tag_or_git_failure_needs_release envGitFail ("demo")).1 rfl⟩,
   ⟨rfl, by decide,
    (C3_no_tag_or_git_failure_needs_release envBase ("demo")).2 ("") rfl (by decide)⟩⟩

/-- C4: for a plugin whose release tag exists (nonempty stripped
`git tag -l` output) and whose diff against `HEAD` is clean (`git diff
--quiet` exits 0), change detection reports no changes and
`process_plugin` returns `True` after the header, the two git queries and
the skip message — no build, asset collection or release step appears in
the trace. -/
theorem C4_unchanged_plugin_skipped (env : Env) (name : String) (deploy : Bool)
    (s : String)
    (hdir : env.dirExists name = true)
    (htag : env.gitTag name = some s)
    (hne : pyStrip s ≠ "")
    (hdiff : env.gitDiffRet name = 0) :
    (check_changes_since_release env name).2 =
      (false, "No changes since last release") ∧
    (process_plugin env name deploy).2 = Except.ok true ∧
    (process_plugin env name deploy).1 =
      [Event.logLine LogLevel.info ("\n" ++ name ++ ":"),
       Event.execGitTagList name,
       Event.execGitDiff name ("plugins/" ++ name),
       Event.logLine LogLevel.info ("  No changes since last release, skipping")] := by
  have hc : check_changes_since_release env name =
      ([Event.execGitTagList name, Event.execGitDiff name ("plugins/" ++ name)],
       (false, "No changes since last release")) := by
    unfold check_changes_since_release
    rw [htag]
    simp [hne, hdiff]
  refine ⟨by rw [hc], ?_, ?_⟩ <;>
  · unfold process_plugin
    simp [hdir, hc]

/-- Witness for C4 at the released, unchanged plugin `foo-table`. -/
theorem C4_witness :
    (envUnchanged.dirExists ("foo-table") = true ∧
     envUnchanged.gitTag ("foo-table") = some ("foo-table") ∧
     pyStrip ("foo-table") ≠ "" ∧
     envUnchanged.gitDiffRet ("foo-table") = 0) ∧
    ((check_changes_since_release envUnchanged ("foo-table")).2 =
        (false, "No changes since last release") ∧
      (process_plugin envUnchanged ("foo-table") false).2 = Except.ok true ∧
      (process_plugin envUnchanged ("foo-table") false).1 =
        [Event.logLine LogLevel.info ("\n" ++ "foo-table" ++ ":"),
         Event.execGitTagList ("foo-table"),
         Event.execGitDiff ("foo-table") ("plugins/" ++ "foo-table"),
         Event.logLine LogLevel.info
           ("  No changes since last release, skipping")]) :=
  ⟨⟨rfl, rfl, by decide, rfl⟩,
   C4_unchanged_plugin_skipped envUnchanged ("foo-table") false ("foo-table")
     rfl rfl (by decide) rfl⟩

/-- C5: when a build descriptor was selected and the build step fails,
`process_plugin` returns `False`, its trace holds no asset-collection glob
and no gh execution, and the per-plugin loop of `main` continues: the
outcome over the remaining targets is unchanged. -/
theorem C5_build_failure_stops_plugin (env : Env) (name : String)
    (deploy : Bool) (bf : String) (rest : List String)
    (hdir : env.dirExists name = true)
    (hch : (check_changes_since_release env name).2.1 = true)
    (hbf : buildFileOf env name = some bf)
    (hfail : (build_plugin env name bf).2 = false) :
    (process_plugin env name deploy).2 = Except.ok false ∧
    ((process_plugin env name deploy).1).all
      (fun e => !(isGlob e) && !(isGhExec e)) = true ∧
    (runPlugins env deploy (name :: rest)).2 = (runPlugins env deploy rest).2 := by
  have hpp : process_plugin env name deploy =
      ([Event.logLine LogLevel.info ("\n" ++ name ++ ":")] ++
        (check_changes_since_release env name).1 ++
        [Event.logLine LogLevel.info
          ("  " ++ (check_changes_since_release env name).2.2)] ++
        (build_plugin env name bf).1,
       Except.ok false) := by
    unfold process_plugin
    simp [hdir, hch, hbf, hfail]
  refine ⟨by rw [hpp], ?_, ?_⟩
  · rw [hpp]
    have hcheck : ((check_changes_since_release env name).1).all
        (fun e => !(isGlob e) && !(isGhExec e)) = true := by
      refine all_weaken (check_events_class env name) ?_
      intro e he
      cases e <;> simp_all [isGlob, isGhExec, isBuildExec]
    have hbuild := build_events_class env name bf
    have hA : ([Event.logLine LogLevel.info ("\n" ++ name ++ ":")]).all
        (fun e => !(isGlob e) && !(isGhExec e)) = true := rfl
    have hC : ([Event.logLine LogLevel.info
        ("  " ++ (check_changes_since_release env name).2.2)]).all
        (fun e => !(isGlob e) && !(isGhExec e)) = true := rfl
    simp only [List.all_append, hA, hC, hcheck, hbuild, Bool.and_true,
      Bool.true_and]
  · simp [runPlugins, hpp, runPlugins_spec]

/-- Witness for C5: a failing `npm install` under a `build.js` descriptor,
with one further target still processed. -/
theorem C5_witness :
    (envBuildFail.dirExists ("bar-chart") = true ∧
     (check_changes_since_release envBuildFail ("bar-chart")).2.1 = true ∧
     buildFileOf envBuildFail ("bar-chart") = some ("build.js") ∧
     (build_plugin envBuildFail ("bar-chart") ("build.js")).2 = false) ∧
    ((process_plugin envBuildFail ("bar-chart") false).2 = Except.ok false ∧
      ((process_plugin envBuildFail ("bar-chart") false).1).all
        (fun e => !(isGlob e) && !(isGhExec e)) = true ∧
      (runPlugins envBuildFail false (("bar-chart") :: ["foo-table"])).2 =
        (runPlugins envBuildFail false ["foo-table"]).2) :=
  ⟨⟨rfl, by decide, rfl, rfl⟩,
   C5_build_failure_stops_plugin envBuildFail ("bar-chart") false ("build.js")
     ["foo-table"] rfl (by decide) rfl rfl⟩

/-- C6: when asset collection under the built-flag actually computed by
`process_plugin` yields no files — whether or not a build ran — the plugin
is reported failed: an error line is logged, `process_plugin` returns
`False`, and no gh command is executed. -/
theorem C6_empty_assets_fail_plugin (env : Env) (name : String) (deploy : Bool)
    (hdir : env.dirExists name = true)
    (hch : (check_changes_since_release env name).2.1 = true)
    (hnb : buildOutcome env name ≠ some false)
    (hempty : (collect_release_assets env name (builtFlag env name)).2 = []) :
    (process_plugin env name deploy).2 = Except.ok false ∧
    noGh (process_plugin env name deploy).1 = true ∧
    ((process_plugin env name deploy).1).any isErrorLog = true := by
  have hcheckGh : ((check_changes_since_release env name).1).all
      (fun e => !(isGhExec e)) = true := by
    refine all_weaken (check_events_class env name) ?_
    intro e he
    cases e <;> simp_all [isGlob, isGhExec, isBuildExec]
  cases hbf : buildFileOf env name with
  | none =>
      have hflag : builtFlag env name = false := by
        simp [builtFlag, buildOutcome, hbf]
      rw [hflag] at hempty
      have hpp : process_plugin env name deploy =
          ([Event.logLine LogLevel.info ("\n" ++ name ++ ":")] ++
            (check_changes_since_release env name).1 ++
            [Event.logLine LogLevel.info
              ("  " ++ (check_changes_since_release env name).2.2)] ++
            (collect_release_assets env name false).1,
           Except.ok false) := by
        unfold process_plugin
        simp [hdir, hch, hbf, post_empty env name deploy false hempty]
      refine ⟨by rw [hpp], ?_, ?_⟩
      · rw [hpp]
        have hco := collect_no_gh env name false
        unfold noGh at hco ⊢
        have hA : ([Event.logLine LogLevel.info ("\n" ++ name ++ ":")]).all
            (fun e => !(isGhExec e)) = true := rfl
        have hC : ([Event.logLine LogLevel.info
            ("  " ++ (check_changes_since_release env name).2.2)]).all
            (fun e => !(isGhExec e)) = true := rfl
        simp only [List.all_append, hA, hC, hcheckGh, hco, Bool.and_true,
          Bool.true_and]
      · rw [hpp]
        simp [List.any_append, collect_empty_has_error env name false hempty]
  | some bf =>
      have hbt : (build_plugin env name bf).2 = true := by
        have : buildOutcome env name = some ((build_plugin env name bf).2) := by
          simp [buildOutcome, hbf]
        cases hb2 : (build_plugin env name bf).2
        · rw [hb2] at this
          exact absurd this hnb
        · rfl
      have hflag : builtFlag env name = true := by
        simp [builtFlag, buildOutcome, hbf, hbt]
      rw [hflag] at hempty
      have hpp : process_plugin env name deploy =
          ([Event.logLine LogLevel.info ("\n" ++ name ++ ":")] ++
            (check_changes_since_release env name).1 ++
            [Event.logLine LogLevel.info
              ("  " ++ (check_changes_since_release env name).2.2)] ++
            (build_plugin env name bf).1 ++
            (collect_release_assets env name true).1,
           Except.ok false) := by
        unfold process_plugin
        simp [hdir, hch, hbf, hbt, post_empty env name deploy true hempty]
      refine ⟨by rw [hpp], ?_, ?_⟩
      · rw [hpp]
        have h1 := collect_no_gh env name true
        have h2 : ((build_plugin env name bf).1).all
            (fun e => !(isGhExec e)) = true := by
          refine all_weaken (build_events_class env name bf) ?_
          intro e he
          cases e <;> simp_all [isGlob, isGhExec]
        unfold noGh at h1 ⊢
        have hA : ([Event.logLine LogLevel.info ("\n" ++ name ++ ":")]).all
            (fun e => !(isGhExec e)) = true := rfl
        have hC : ([Event.logLine LogLevel.info
            ("  " ++ (check_changes_since_release env name).2.2)]).all
            (fun e => !(isGhExec e)) = true := rfl
        simp only [List.all_append, hA, hC, hcheckGh, h1, h2, Bool.and_true,
          Bool.true_and]
      · rw [hpp]
        simp [List.any_append, collect_empty_has_error env name true hempty]

/-- Witness for C6: a plugin directory with no build descriptor and no
`.mjs` files at all. -/
theorem C6_witness :
    (envNoAssets.dirExists ("demo") = true ∧
     (check_changes_since_release envNoAssets ("demo")).2.1 = true ∧
     buildOutcome envNoAssets ("demo") ≠ some false ∧
     (collect_release_assets envNoAssets ("demo")
        (builtFlag envNoAssets ("demo"))).2 = []) ∧
    ((process_plugin envNoAssets ("demo") false).2 = Except.ok false ∧
      noGh (process_plugin envNoAssets ("demo") false).1 = true ∧
      ((process_plugin envNoAssets ("demo") false).1).any isErrorLog = true) :=
  ⟨⟨rfl, by decide, by decide, by decide⟩,
   C6_empty_assets_fail_plugin envNoAssets ("demo") false rfl (by decide)
     (by decide) (by decide)⟩

/-- C7: in the processing branch (some plugin names given or `--all`),
`main` exits 0 exactly when `process_plugin` returned `True` for every
targeted plugin, and exits 1 whenever some targeted plugin failed. -/
theorem C7_exit_code_aggregates (env : Env) (args : List String)
    (hroot : env.pluginsDirExists = true)
    (hsel : listOnly args = false) :
    ((main env args).2 = Except.ok 0 ↔
      ∀ name ∈ targetsOf env args,
        (process_plugin env name (deployFlag args)).2 = Except.ok true) ∧
    ((¬ ∀ name ∈ targetsOf env args,
        (process_plugin env name (deployFlag args)).2 = Except.ok true) →
      (main env args).2 = Except.ok 1) := by
  have hiff : (targetsOf env args).countP
      (fun n => okTrue (process_plugin env n (deployFlag args)).2) =
      (targetsOf env args).length ↔
      ∀ name ∈ targetsOf env args,
        (process_plugin env name (deployFlag args)).2 = Except.ok true := by
    rw [List.countP_eq_length]
    constructor
    · intro h name hmem
      exact (okTrue_eq_true_iff _).1 (h name hmem)
    · intro h n hn
      exact (okTrue_eq_true_iff _).2 (h n hn)
  rw [main_processing env args hroot hsel]
  constructor
  · constructor
    · intro h
      by_contra hnot
      rw [if_neg (fun hc => hnot (hiff.1 hc))] at h
      exact absurd h (by simp)
    · intro h
      rw [if_pos (hiff.2 h)]
  · intro hnot
    rw [if_neg (fun hc => hnot (hiff.1 hc))]

/-- Witness for C7 at a concrete environment and one explicit target. -/
theorem C7_witness :
    (envBase.pluginsDirExists = true ∧ listOnly (["bar-chart"]) = false) ∧
    (((main envBase ["bar-chart"]).2 = Except.ok 0 ↔
      ∀ name ∈ targetsOf envBase ["bar-chart"],
        (process_plugin envBase name (deployFlag ["bar-chart"])).2 =
          Except.ok true) ∧
     ((¬ ∀ name ∈ targetsOf envBase ["bar-chart"],
        (process_plugin envBase name (deployFlag ["bar-chart"])).2 =
          Except.ok true) →
      (main envBase ["bar-chart"]).2 = Except.ok 1)) :=
  ⟨⟨rfl, by decide⟩, C7_exit_code_aggregates envBase ["bar-chart"] rfl (by decide)⟩

/-- C8: the gh command constructed by `create_release` (and executed in
deploy mode) carries the plugin name as release tag, the humanized name
(hyphens to spaces, Python title-casing) as title, notes that are exactly
the documentation line around the canonical repository URL of the plugin
directory, and all asset paths; `bar-chart` humanizes to `Bar Chart`. -/
theorem C8_release_command_fields (env : Env) (name : String)
    (assets : List String) :
    Event.execGh (release_cmd name assets) ∈ (create_release env name assets true).1 ∧
    (release_cmd name assets)[3]? = some name ∧
    (release_cmd name assets)[5]? = some (release_title name) ∧
    (release_cmd name assets)[7]? = some (release_notes name) ∧
    (release_cmd name assets).drop 8 = assets ∧
    release_title name = pyTitle (pyReplaceDash name) ∧
    release_notes name = "See plugin documentation: " ++ readme_url name ∧
    readme_url name =
      "https://github.com/jupyter-book/myst-plugins/tree/main/plugins/" ++ name ∧
    release_title ("bar-chart") = "Bar Chart" := by
  refine ⟨?_, by simp [release_cmd], by simp [release_cmd],
    by simp [release_cmd], by simp [release_cmd], rfl, rfl, rfl, by decide⟩
  unfold create_release
  cases env.ghOk <;> simp

set_option maxRecDepth 4096 in
/-- C9 divergence: in dry-run mode with two collected assets, the printed
command line interpolates only `asset_paths[0]`: the second asset path
appears in the command that deploy mode would execute but nowhere in the
printed line, so the printed command is not equivalent to the executed
one. -/
theorem C9_dry_run_command_misses_assets :
    ("plugins/demo/b.mjs" ∈
      release_cmd ("demo") ["plugins/demo/a.mjs", "plugins/demo/b.mjs"]) ∧
    (create_release envBase ("demo")
        ["plugins/demo/a.mjs", "plugins/demo/b.mjs"] false).1 =
      [Event.logLine LogLevel.info ("  Assets: a.mjs, b.mjs"),
       Event.logLine LogLevel.info
         (dryRunCommandLine ("demo") ("plugins/demo/a.mjs")),
       Event.logLine LogLevel.info ("  (dry-run mode, use --deploy to execute)")] ∧
    strContains (dryRunCommandLine ("demo") ("plugins/demo/a.mjs")) ("b.mjs") = false ∧
    strContains (dryRunCommandLine ("demo") ("plugins/demo/a.mjs")) ("a.mjs") = true :=
  ⟨by decide, by decide, by decide, by decide⟩

/-- C10: every asset returned by `collect_release_assets` is a file of the
plugin directory whose name ends in `.mjs`, taken non-recursively: from
`dist/` (no further slash after the `dist/` component) when built, from
the top level (no slash at all) when not built. -/
theorem C10_assets_nonrecursive_mjs_only (env : Env) (name : String)
    (built : Bool) :
    ∀ a ∈ (collect_release_assets env name built).2,
      a ∈ env.files name ∧
      strEndsWith a (".mjs") = true ∧
      (built = true →
        strStartsWith a ("dist/") = true ∧
        strHasChar (strDropChars a 5) ('/') = false) ∧
      (built = false → strHasChar a ('/') = false) := by
  intro a ha
  cases built
  · unfold collect_release_assets at ha
    rw [if_neg (by simp)] at ha
    split at ha
    · simp at ha
    · unfold globTopMjs at ha
      rw [List.mem_filter] at ha
      obtain ⟨hmem, hpred⟩ := ha
      rw [Bool.and_eq_true] at hpred
      obtain ⟨h1, h2⟩ := hpred
      rw [Bool.not_eq_true'] at h1
      exact ⟨hmem, h2, by intro h; exact absurd h (by simp), fun _ => h1⟩
  · unfold collect_release_assets at ha
    rw [if_pos rfl] at ha
    split at ha
    · split at ha
      · simp at ha
      · unfold globDistMjs at ha
        rw [List.mem_filter] at ha
        obtain ⟨hmem, hpred⟩ := ha
        rw [Bool.and_eq_true, Bool.and_eq_true] at hpred
        obtain ⟨⟨h1, h2⟩, h3⟩ := hpred
        rw [Bool.not_eq_true'] at h2
        exact ⟨hmem, h3, fun _ => ⟨h1, h2⟩, by intro h; exact absurd h (by simp)⟩
    · simp at ha

/-- Witness for C10 at a top-level asset of a concrete environment. -/
theorem C10_witness :
    ("index.mjs" ∈ (collect_release_assets envBase ("demo") false).2) ∧
    ("index.mjs" ∈ envBase.files ("demo") ∧
      strEndsWith ("index.mjs") (".mjs") = true ∧
      (false = true →
        strStartsWith ("index.mjs") ("dist/") = true ∧
        strHasChar (strDropChars ("index.mjs") 5) ('/') = false) ∧
      (false = false → strHasChar ("index.mjs") ('/') = false)) :=
  ⟨by decide,
   C10_assets_nonrecursive_mjs_only envBase ("demo") false ("index.mjs") (by decide)⟩

end MystPlugins
